import Mathlib

/-!
# Verification of the BoM radar proxy cache core

Shallow embedding of the retrieval-and-freshness cache of the add-on
server (`src/server.js`, resolution-aware version): the image store
(`getRadarImage`, `downloadFromFTP`), the metadata cache with its rate
limiter (`listAvailableTimestamps`, `canRefreshTimestamps`,
`updateTimestampRefreshTime`, `getTimeUntilNextRefresh`), and the two
eviction sweeps (`cleanupCache`, `checkCacheSize`).

Modelling conventions:
* Wall-clock instants (`Date.now()`, file `mtimeMs`) are integer
  milliseconds (`Int`).
* JavaScript computes ages as real-valued divisions `(now - t) / 1000`
  and compares them against integer second bounds; every such comparison
  is scaled by 1000 here, which is exact:
  `(now - t)/1000 ≥ DISK_CACHE_TTL ↔ now - t ≥ DISK_CACHE_TTL * 1000`,
  and likewise for the strict comparisons.  `Math.floor` of such a
  quotient is floor division `Int.fdiv · 1000`, `Math.ceil` is
  `-((-·).fdiv 1000)`.
* The cache directory is an association list from file name to file
  content and modification time; `fs.writeFile` replaces, `fs.unlink`
  removes, `fs.readdir` is the list itself.
* The FTP transfer of one call is its outcome, passed as an explicit
  `Except` argument (the network is external to the program).
* `parseTimestamp` (local-calendar decoding of the 12-digit string) is
  abstracted: the parsed instant `tsMs` is passed alongside the
  timestamp string, which the code only uses verbatim inside cache keys.
* `MAX_CACHE_SIZE_MB` comes from the environment
  (`parseInt(process.env.MAX_CACHE_SIZE_MB) || 1000`), so the size sweep
  takes it as a parameter; the other two environment-configurable
  constants are fixed at their defaults, which is what every claim uses.
* The size-sweep target `MAX_CACHE_SIZE_MB * 0.8 * 1024 * 1024` is
  compared against integer byte counts; `n ≤ maxMB * 0.8 * 2^20` is
  `5 * n ≤ 4 * maxMB * 2^20`, again exact.
-/

namespace BomRadarProxy

/-- `TIMESTAMP_REFRESH_INTERVAL` in milliseconds
(`(parseInt(process.env.TIMESTAMP_REFRESH_INTERVAL) || 600) * 1000`,
at its default). -/
def TIMESTAMP_REFRESH_INTERVAL : Int := 600 * 1000

/-- `CURRENT_IMAGE_REFRESH_INTERVAL` in milliseconds (10 minutes). -/
def CURRENT_IMAGE_REFRESH_INTERVAL : Int := 600000

/-- `CURRENT_IMAGE_THRESHOLD` in seconds (30 minutes). -/
def CURRENT_IMAGE_THRESHOLD : Int := 1800

/-- `DISK_CACHE_TTL` in seconds
(`(parseInt(process.env.CACHE_TTL_HOURS) || 24) * 3600`, at its default). -/
def DISK_CACHE_TTL : Int := 24 * 3600

/-- `RESOLUTION_SUFFIX` lookup table. -/
def RESOLUTION_SUFFIX (resolution : Nat) : Option String :=
  if resolution = 64 then some "1"
  else if resolution = 128 then some "2"
  else if resolution = 256 then some "3"
  else if resolution = 512 then some "4"
  else none

/-- `SUPPORTED_RESOLUTIONS` (512 composite skipped). -/
def SUPPORTED_RESOLUTIONS : List Nat := [64, 128, 256]

/-- One file of the on-disk cache: its modification time and payload.
`fs.stat(...).size` of such a file is `bytes.length`. -/
structure CacheFile where
  mtimeMs : Int
  bytes : List Nat
deriving Repr, DecidableEq

/-- The cache directory: file name to file, names unique in any state the
process itself produces. -/
abbrev Store := List (String × CacheFile)

/-- `fs.unlink`: remove the file of that name. -/
def Store.erase (s : Store) (name : String) : Store :=
  s.filter (fun e => !(e.1 == name))

/-- `fs.writeFile`: full replace-or-create of the file of that name. -/
def Store.write (s : Store) (name : String) (f : CacheFile) : Store :=
  (name, f) :: s.erase name

/-- Does a directory entry name end in `.png`? -/
def isPngName (name : String) : Bool :=
  ".png".data.isSuffixOf name.data

/-- The typed remote-error set of the spec (`NotFound` is FTP code 550;
`getRadarImage` rethrows all three unchanged). -/
inductive FetchErr where
  | notFound
  | timeout
  | transportError
deriving Repr, DecidableEq

/-- `downloadFromFTP`: data chunks are accumulated in memory and
concatenated only on the stream `end` event; a connection or stream error
rejects with no buffer at all.  The transfer outcome is either the
complete chunk sequence or an error, never a partial buffer. -/
def downloadFromFTP (transfer : Except FetchErr (List (List Nat))) :
    Except FetchErr (List Nat) :=
  match transfer with
  | .error e => .error e
  | .ok chunks => .ok chunks.flatten

/-- The record `getRadarImage` resolves with (ages floored to seconds). -/
structure GetResult where
  buffer : List Nat
  fromCache : Bool
  cacheAge : Int
  imageAge : Int
  resolution : Nat
deriving Repr, DecidableEq

/-- Failures of `getRadarImage`. -/
inductive GetErr where
  | unsupportedResolution
  | remote (e : FetchErr)
deriving Repr, DecidableEq

/-- `const cacheKey = radarId + "_" + timestamp + "_" + resolution`. -/
def imageCacheKey (radarId timestamp : String) (resolution : Nat) : String :=
  radarId ++ "_" ++ timestamp ++ "_" ++ toString resolution

/-- The cache file name `cacheKey + ".png"`. -/
def imageCachePath (radarId timestamp : String) (resolution : Nat) : String :=
  imageCacheKey radarId timestamp resolution ++ ".png"

/-- The cache-inspection phase of `getRadarImage` (the `try` block around
`fs.stat`): either a cache-hit result, or `none` together with the store
as it stands at the moment the FTP download begins (any expired or stale
copy already unlinked). -/
def cacheCheck (now tsMs : Int) (radarId timestamp : String)
    (resolution : Nat) (store : Store) : Option GetResult × Store :=
  let cachePath := imageCachePath radarId timestamp resolution
  let imageAgeMs := now - tsMs
  let isCurrent := decide (imageAgeMs < CURRENT_IMAGE_THRESHOLD * 1000)
  match store.lookup cachePath with
  | none => (none, store)
  | some file =>
      let fileCacheAgeMs := now - file.mtimeMs
      if fileCacheAgeMs ≥ DISK_CACHE_TTL * 1000 then
        (none, store.erase cachePath)
      else if !isCurrent || decide (imageAgeMs < CURRENT_IMAGE_REFRESH_INTERVAL) then
        (some { buffer := file.bytes, fromCache := true,
                cacheAge := fileCacheAgeMs.fdiv 1000,
                imageAge := imageAgeMs.fdiv 1000,
                resolution := resolution },
         store)
      else
        (none, store.erase cachePath)

/-- `getRadarImage(radarId, timestamp, resolution)` of the add-on server:
validate the resolution, consult the disk cache (`cacheCheck`), and on a
miss download, persist the buffer under the key and return it fresh.
The trailing `checkCacheSize()` call is issued without `await`; the store
returned here is the one the caller observes. -/
def getRadarImage (now tsMs : Int) (radarId timestamp : String)
    (resolution : Nat) (fetch : Except FetchErr (List Nat))
    (store : Store) : Except GetErr GetResult × Store :=
  if resolution ∈ SUPPORTED_RESOLUTIONS then
    match cacheCheck now tsMs radarId timestamp resolution store with
    | (some hit, st) => (Except.ok hit, st)
    | (none, st) =>
        match fetch with
        | .error e => (Except.error (GetErr.remote e), st)
        | .ok buffer =>
            (Except.ok { buffer := buffer, fromCache := false, cacheAge := 0,
                         imageAge := (now - tsMs).fdiv 1000,
                         resolution := resolution },
             st.write (imageCachePath radarId timestamp resolution)
               { mtimeMs := now, bytes := buffer })
  else (Except.error GetErr.unsupportedResolution, store)

/-- A sequence of `getRadarImage` calls for one key at successive
instants, each seeing the store the previous call left behind;
`fetch t` is the transfer outcome a download started at `t` would have. -/
def runGets (tsMs : Int) (radarId timestamp : String) (resolution : Nat)
    (fetch : Int → Except FetchErr (List Nat)) :
    List Int → Store → List (Except GetErr GetResult) × Store
  | [], store => ([], store)
  | t :: ts, store =>
      let step := getRadarImage t tsMs radarId timestamp resolution (fetch t) store
      let rest := runGets tsMs radarId timestamp resolution fetch ts step.2
      (step.1 :: rest.1, rest.2)

/-- Should the hourly TTL sweep delete this directory entry?
(`age > DISK_CACHE_TTL`, with `age = (now - mtimeMs) / 1000`.) -/
def ttlExpired (now : Int) (e : String × CacheFile) : Bool :=
  isPngName e.1 && decide (now - e.2.mtimeMs > DISK_CACHE_TTL * 1000)

/-- The `for` loop of `cleanupCache` over the `readdir` listing.
`fails name = true` models `fs.stat`/`fs.unlink` throwing for that file;
the exception propagates out of the loop to the sweep-level `catch`, so
the sweep stops there, keeping the deletions already made. -/
def cleanupCacheLoop (now : Int) (fails : String → Bool) :
    List (String × CacheFile) → Store → Store
  | [], store => store
  | e :: rest, store =>
      if isPngName e.1 = false then cleanupCacheLoop now fails rest store
      else if fails e.1 then store
      else if now - e.2.mtimeMs > DISK_CACHE_TTL * 1000 then
        cleanupCacheLoop now fails rest (store.erase e.1)
      else cleanupCacheLoop now fails rest store

/-- One run of the hourly TTL sweep with per-file failure injection. -/
def cleanupCacheWithFailures (now : Int) (fails : String → Bool)
    (store : Store) : Store :=
  cleanupCacheLoop now fails store store

/-- `cleanupCache`: one failure-free run of the hourly TTL sweep. -/
def cleanupCache (now : Int) (store : Store) : Store :=
  cleanupCacheWithFailures now (fun _ => false) store

/-- One element of the `fileStats` array of `checkCacheSize`. -/
structure FileStat where
  path : String
  size : Nat
  mtime : Int
deriving Repr, DecidableEq

/-- The `fileStats` array: one entry per `.png` file of the directory. -/
def fileStatsOf (store : Store) : List FileStat :=
  (store.filter (fun e => isPngName e.1)).map
    (fun e => { path := e.1, size := e.2.bytes.length, mtime := e.2.mtimeMs })

/-- Total byte size of the `.png` files of the store. -/
def totalCacheSize (store : Store) : Nat :=
  ((fileStatsOf store).map (fun f => f.size)).sum

/-- The sort comparator `(a, b) => a.mtime - b.mtime` (oldest first;
`Array.prototype.sort` is stable). -/
def mtimeLe (a b : FileStat) : Bool := decide (a.mtime ≤ b.mtime)

/-- The deletion loop of `checkCacheSize` over the sorted `fileStats`:
returns the deleted ones and the survivors.  The loop guard
`totalSize - freedSpace <= targetSize` with
`targetSize = maxMB * 0.8 * 2^20` is scaled by 5:
`5 * (totalSize - freed) ≤ 4 * maxMB * 2^20`. -/
def evictLoop (totalSize targetScaled : Nat) :
    List FileStat → Nat → List FileStat × List FileStat
  | [], _ => ([], [])
  | f :: rest, freed =>
      if 5 * (totalSize - freed) ≤ targetScaled then ([], f :: rest)
      else
        let p := evictLoop totalSize targetScaled rest (freed + f.size)
        (f :: p.1, p.2)

/-- `maxMB * 1024 * 1024`: the byte budget `MAX_CACHE_SIZE_MB` denotes. -/
def maxCacheSizeBytes (maxMB : Nat) : Nat := maxMB * 1024 * 1024

/-- The files one run of `checkCacheSize` deletes: nothing unless the
total strictly exceeds the budget (`totalSizeMB > MAX_CACHE_SIZE_MB`),
else the leading run of the mtime-sorted listing the loop unlinks. -/
def checkCacheSizeDeleted (maxMB : Nat) (store : Store) : List FileStat :=
  let stats := fileStatsOf store
  let totalSize := (stats.map (fun f => f.size)).sum
  if totalSize > maxCacheSizeBytes maxMB then
    (evictLoop totalSize (4 * maxCacheSizeBytes maxMB)
      (stats.mergeSort mtimeLe) 0).1
  else []

/-- One failure-free run of the size sweep `checkCacheSize`. -/
def checkCacheSize (maxMB : Nat) (store : Store) : Store :=
  (checkCacheSizeDeleted maxMB store).foldl
    (fun st f => st.erase f.path) store

/-- The deletion loop of `checkCacheSize` with per-file failure
injection: `fs.unlink` throwing for a file aborts to the sweep-level
`catch`, so that file and all later ones stay. -/
def evictLoopWithFailures (totalSize targetScaled : Nat)
    (fails : String → Bool) : List FileStat → Nat → List FileStat
  | [], _ => []
  | f :: rest, freed =>
      if 5 * (totalSize - freed) ≤ targetScaled then []
      else if fails f.path then []
      else f :: evictLoopWithFailures totalSize targetScaled fails rest
        (freed + f.size)

/-- One run of the size sweep with per-file failure injection. -/
def checkCacheSizeWithFailures (maxMB : Nat) (fails : String → Bool)
    (store : Store) : Store :=
  let stats := fileStatsOf store
  let totalSize := (stats.map (fun f => f.size)).sum
  let deleted :=
    if totalSize > maxCacheSizeBytes maxMB then
      evictLoopWithFailures totalSize (4 * maxCacheSizeBytes maxMB) fails
        (stats.mergeSort mtimeLe) 0
    else []
  deleted.foldl (fun st f => st.erase f.path) store

/-- The in-memory metadata state: the `metaCache` entries
(`timestamps_{radarId}_{resolution}` to timestamp list; an entry absent
here is one never set or already expired from the NodeCache) and the
`lastTimestampRefresh` map (radarId to refresh instant in ms). -/
structure MetaState where
  metaCache : List (String × List String)
  lastTimestampRefresh : List (String × Int)
deriving Repr, DecidableEq

/-- `canRefreshTimestamps`: has `TIMESTAMP_REFRESH_INTERVAL` passed since
the last refresh of this radar? -/
def canRefreshTimestamps (now : Int) (st : MetaState)
    (radarId : String) : Bool :=
  match st.lastTimestampRefresh.lookup radarId with
  | none => true
  | some lastRefresh => decide (now - lastRefresh ≥ TIMESTAMP_REFRESH_INTERVAL)

/-- `updateTimestampRefreshTime`: `lastTimestampRefresh.set(radarId, Date.now())`. -/
def updateTimestampRefreshTime (now : Int) (st : MetaState)
    (radarId : String) : MetaState :=
  { st with lastTimestampRefresh :=
      (radarId, now) ::
        st.lastTimestampRefresh.filter (fun e => !(e.1 == radarId)) }

/-- `Math.ceil(x / 1000)` for an integer count of milliseconds. -/
def ceilDiv1000 (x : Int) : Int := -((-x).fdiv 1000)

/-- `getTimeUntilNextRefresh`: seconds until the limiter reopens
(`Math.max(0, Math.ceil(timeRemaining / 1000))`). -/
def getTimeUntilNextRefresh (now : Int) (st : MetaState)
    (radarId : String) : Int :=
  match st.lastTimestampRefresh.lookup radarId with
  | none => 0
  | some lastRefresh =>
      max 0 (ceilDiv1000 (TIMESTAMP_REFRESH_INTERVAL - (now - lastRefresh)))

/-- One FTP directory-listing entry (`item.type`, `item.name`). -/
structure DirEntry where
  type : Char
  name : String
deriving Repr, DecidableEq

/-- The test-and-capture of the listing regular expression
`^{radarId}{suffix}\.T\.(\d{12})\.png$`: the captured 12-digit timestamp
when the name matches. -/
def matchTimestampName (radarId suffix name : String) : Option String :=
  let pre := (radarId ++ suffix ++ ".T.").data
  let nd := name.data
  if pre.isPrefixOf nd then
    let rest := nd.drop pre.length
    if rest.take 12 |>.all Char.isDigit then
      if rest.length = 16 ∧ rest.drop 12 = ".png".data then
        some (String.mk (rest.take 12))
      else none
    else none
  else none

/-- The listing pipeline: keep plain files matching the pattern, extract
the timestamps, `sort` them (lexicographically ascending), `reverse`
(newest first) and truncate to `maxResults`. -/
def extractTimestamps (radarId suffix : String) (maxResults : Nat)
    (entries : List DirEntry) : List String :=
  let matching := entries.filter
    (fun item => item.type == '-' &&
      (matchTimestampName radarId suffix item.name).isSome)
  let timestamps := matching.filterMap
    (fun item => matchTimestampName radarId suffix item.name)
  ((timestamps.mergeSort (fun a b => decide (a ≤ b))).reverse).take maxResults

/-- The record `listAvailableTimestamps` resolves with.  The JavaScript
object carries a `rateLimited` field only on one branch; the HTTP layer
reads `result.rateLimited || false`, so an absent field is `false` here. -/
structure ListResult where
  timestamps : List String
  fromCache : Bool
  nextRefreshIn : Int
  rateLimited : Bool
deriving Repr, DecidableEq

/-- Failures of `listAvailableTimestamps`. -/
inductive ListErr where
  | invalidResolution
  | rateLimited (waitTime : Int)
  | remote (e : FetchErr)
deriving Repr, DecidableEq

/-- `const cacheKey = "timestamps_" + radarId + "_" + resolution`. -/
def timestampsCacheKey (radarId : String) (resolution : Nat) : String :=
  "timestamps_" ++ radarId ++ "_" ++ toString resolution

/-- `listAvailableTimestamps(radarId, resolution, maxResults, force)` of
the add-on server.  `remote` is the outcome `client.list(FTP_PATH)` would
deliver if the call gets that far. -/
def listAvailableTimestamps (now : Int) (radarId : String)
    (resolution : Nat) (maxResults : Nat) (force : Bool)
    (remote : Except FetchErr (List DirEntry)) (st : MetaState) :
    Except ListErr ListResult × MetaState :=
  match RESOLUTION_SUFFIX resolution with
  | none => (Except.error ListErr.invalidResolution, st)
  | some suffix =>
    let cacheKey := timestampsCacheKey radarId resolution
    let cached := st.metaCache.lookup cacheKey
    match cached, force with
    | some ts, false =>
        (Except.ok { timestamps := ts, fromCache := true,
                     nextRefreshIn := getTimeUntilNextRefresh now st radarId,
                     rateLimited := false }, st)
    | _, _ =>
      if force = false ∧ canRefreshTimestamps now st radarId = false then
        match cached with
        | some ts =>
            (Except.ok { timestamps := ts, fromCache := true,
                         nextRefreshIn := getTimeUntilNextRefresh now st radarId,
                         rateLimited := true }, st)
        | none =>
            (Except.error
              (ListErr.rateLimited (getTimeUntilNextRefresh now st radarId)),
             st)
      else
        match remote with
        | .error e => (Except.error (ListErr.remote e), st)
        | .ok entries =>
            let timestamps := extractTimestamps radarId suffix maxResults entries
            let st1 : MetaState :=
              { metaCache := (cacheKey, timestamps) ::
                  st.metaCache.filter (fun e => !(e.1 == cacheKey)),
                lastTimestampRefresh := st.lastTimestampRefresh }
            let st2 := updateTimestampRefreshTime now st1 radarId
            (Except.ok { timestamps := timestamps, fromCache := false,
                         nextRefreshIn := TIMESTAMP_REFRESH_INTERVAL / 1000,
                         rateLimited := false }, st2)

end BomRadarProxy

namespace BomRadarProxy

/-! ## Basic facts about the image-store freshness policy -/

theorem cacheCheck_not_found {now tsMs : Int} {radarId timestamp : String}
    {resolution : Nat} {store : Store}
    (hlook : store.lookup (imageCachePath radarId timestamp resolution) = none) :
    cacheCheck now tsMs radarId timestamp resolution store = (none, store) := by
  simp [cacheCheck, hlook]

theorem cacheCheck_expired {now tsMs : Int} {radarId timestamp : String}
    {resolution : Nat} {store : Store} {file : CacheFile}
    (hlook : store.lookup (imageCachePath radarId timestamp resolution) = some file)
    (httl : now - file.mtimeMs ≥ DISK_CACHE_TTL * 1000) :
    cacheCheck now tsMs radarId timestamp resolution store =
      (none, store.erase (imageCachePath radarId timestamp resolution)) := by
  simp [cacheCheck, hlook, httl]

theorem cacheCheck_hit {now tsMs : Int} {radarId timestamp : String}
    {resolution : Nat} {store : Store} {file : CacheFile}
    (hlook : store.lookup (imageCachePath radarId timestamp resolution) = some file)
    (httl : now - file.mtimeMs < DISK_CACHE_TTL * 1000)
    (husable : ¬ now - tsMs < CURRENT_IMAGE_THRESHOLD * 1000 ∨
      now - tsMs < CURRENT_IMAGE_REFRESH_INTERVAL) :
    cacheCheck now tsMs radarId timestamp resolution store =
      (some { buffer := file.bytes, fromCache := true,
              cacheAge := (now - file.mtimeMs).fdiv 1000,
              imageAge := (now - tsMs).fdiv 1000,
              resolution := resolution },
       store) := by
  have h1 : ¬ now - file.mtimeMs ≥ DISK_CACHE_TTL * 1000 := not_le.2 httl
  rcases husable with h | h
  · simp [cacheCheck, hlook, h1, h]
  · simp [cacheCheck, hlook, h1, h]

theorem cacheCheck_stale_current {now tsMs : Int} {radarId timestamp : String}
    {resolution : Nat} {store : Store} {file : CacheFile}
    (hlook : store.lookup (imageCachePath radarId timestamp resolution) = some file)
    (httl : now - file.mtimeMs < DISK_CACHE_TTL * 1000)
    (hcur : now - tsMs < CURRENT_IMAGE_THRESHOLD * 1000)
    (hstale : ¬ now - tsMs < CURRENT_IMAGE_REFRESH_INTERVAL) :
    cacheCheck now tsMs radarId timestamp resolution store =
      (none, store.erase (imageCachePath radarId timestamp resolution)) := by
  have h1 : ¬ now - file.mtimeMs ≥ DISK_CACHE_TTL * 1000 := not_le.2 httl
  simp [cacheCheck, hlook, h1, hcur, hstale]

theorem getRadarImage_of_hit {now tsMs : Int} {radarId timestamp : String}
    {resolution : Nat} {fetch : Except FetchErr (List Nat)} {store : Store}
    {hit : GetResult}
    (hres : resolution ∈ SUPPORTED_RESOLUTIONS)
    (h : cacheCheck now tsMs radarId timestamp resolution store = (some hit, store)) :
    getRadarImage now tsMs radarId timestamp resolution fetch store =
      (Except.ok hit, store) := by
  simp [getRadarImage, hres, h]

theorem getRadarImage_of_miss {now tsMs : Int} {radarId timestamp : String}
    {resolution : Nat} {fetch : Except FetchErr (List Nat)} {store st1 : Store}
    (hres : resolution ∈ SUPPORTED_RESOLUTIONS)
    (h : cacheCheck now tsMs radarId timestamp resolution store = (none, st1)) :
    getRadarImage now tsMs radarId timestamp resolution fetch store =
      (match fetch with
       | .error e => (Except.error (GetErr.remote e), st1)
       | .ok buffer =>
           (Except.ok { buffer := buffer, fromCache := false, cacheAge := 0,
                        imageAge := (now - tsMs).fdiv 1000,
                        resolution := resolution },
            st1.write (imageCachePath radarId timestamp resolution)
              { mtimeMs := now, bytes := buffer })) := by
  simp [getRadarImage, hres, h]

/-! ## C1 -/

/-- C1, the claim as stated is false: a current key (content age 100 s at
the first call) is downloaded at t = 100 s and requested again 550 s
later — both the separation and the storage age are below
`CURRENT_IMAGE_REFRESH_INTERVAL`, and the on-disk copy is far from
`DISK_CACHE_TTL` — yet the second call deletes the copy and serves from
the remote (`fromCache = false`), because the code compares the content
age (650 s ≥ 600 s), not the storage age, against the 10-minute window. -/
theorem current_window_cex :
    (650000 - 100000 : Int) < CURRENT_IMAGE_REFRESH_INTERVAL ∧
    (650000 - 0 : Int) < CURRENT_IMAGE_THRESHOLD * 1000 ∧
    (getRadarImage 100000 0 "IDR023" "202410231430" 64
        (Except.ok [1]) []).1 =
      Except.ok { buffer := [1], fromCache := false, cacheAge := 0,
                  imageAge := 100, resolution := 64 } ∧
    (getRadarImage 650000 0 "IDR023" "202410231430" 64 (Except.ok [2])
        (getRadarImage 100000 0 "IDR023" "202410231430" 64
          (Except.ok [1]) []).2).1 =
      Except.ok { buffer := [2], fromCache := false, cacheAge := 0,
                  imageAge := 650, resolution := 64 } := by
  exact ⟨by decide, by decide, by rfl, by rfl⟩

/-- C1 (amended): for a get of a key classified as current whose on-disk
object has not passed `DISK_CACHE_TTL`, the object is usable and
returned from cache if and only if its **content age** (time since the
timestamp encoded in the key) is below `CURRENT_IMAGE_REFRESH_INTERVAL`
(10 minutes); otherwise the object is deleted and the miss path is
taken. -/
theorem current_window_content_age {now tsMs : Int}
    {radarId timestamp : String} {resolution : Nat}
    {fetch : Except FetchErr (List Nat)} {store : Store} {file : CacheFile}
    (hres : resolution ∈ SUPPORTED_RESOLUTIONS)
    (hlook : store.lookup (imageCachePath radarId timestamp resolution) = some file)
    (httl : now - file.mtimeMs < DISK_CACHE_TTL * 1000)
    (hcur : now - tsMs < CURRENT_IMAGE_THRESHOLD * 1000) :
    (now - tsMs < CURRENT_IMAGE_REFRESH_INTERVAL →
      getRadarImage now tsMs radarId timestamp resolution fetch store =
        (Except.ok { buffer := file.bytes, fromCache := true,
                     cacheAge := (now - file.mtimeMs).fdiv 1000,
                     imageAge := (now - tsMs).fdiv 1000,
                     resolution := resolution },
         store)) ∧
    (CURRENT_IMAGE_REFRESH_INTERVAL ≤ now - tsMs →
      cacheCheck now tsMs radarId timestamp resolution store =
        (none, store.erase (imageCachePath radarId timestamp resolution)) ∧
      ∀ buffer, fetch = Except.ok buffer →
        getRadarImage now tsMs radarId timestamp resolution fetch store =
          (Except.ok { buffer := buffer, fromCache := false, cacheAge := 0,
                       imageAge := (now - tsMs).fdiv 1000,
                       resolution := resolution },
           (store.erase (imageCachePath radarId timestamp resolution)).write
             (imageCachePath radarId timestamp resolution)
             { mtimeMs := now, bytes := buffer })) := by
  constructor
  · intro hfresh
    exact getRadarImage_of_hit hres (cacheCheck_hit hlook httl (Or.inr hfresh))
  · intro hstale
    have hcc := cacheCheck_stale_current hlook httl hcur (not_lt.2 hstale)
    refine ⟨hcc, fun buffer hb => ?_⟩
    rw [getRadarImage_of_miss hres hcc, hb]

/-- Witness for `current_window_content_age` at a concrete input. -/
theorem current_window_content_age_witness :
    (64 ∈ SUPPORTED_RESOLUTIONS ∧
     ([("IDR023_202410231430_64.png",
        ({ mtimeMs := 100000, bytes := [1] } : CacheFile))] : Store).lookup
        (imageCachePath "IDR023" "202410231430" 64) =
        some { mtimeMs := 100000, bytes := [1] } ∧
     (200000 - 100000 : Int) < DISK_CACHE_TTL * 1000 ∧
     (200000 - 0 : Int) < CURRENT_IMAGE_THRESHOLD * 1000) ∧
    ((200000 - 0 : Int) < CURRENT_IMAGE_REFRESH_INTERVAL →
      getRadarImage 200000 0 "IDR023" "202410231430" 64 (Except.ok [9])
          [("IDR023_202410231430_64.png", { mtimeMs := 100000, bytes := [1] })] =
        (Except.ok { buffer := [1], fromCache := true,
                     cacheAge := ((200000 : Int) - 100000).fdiv 1000,
                     imageAge := ((200000 : Int) - 0).fdiv 1000,
                     resolution := 64 },
         [("IDR023_202410231430_64.png", { mtimeMs := 100000, bytes := [1] })])) := by
  refine ⟨⟨by decide, by decide, by decide, by decide⟩, ?_⟩
  exact (@current_window_content_age 200000 0 "IDR023" "202410231430" 64
    (Except.ok [9])
    [("IDR023_202410231430_64.png", { mtimeMs := 100000, bytes := [1] })]
    { mtimeMs := 100000, bytes := [1] }
    (by decide) (by decide) (by decide) (by decide)).1

end BomRadarProxy

namespace BomRadarProxy

theorem Store.lookup_write (s : Store) (name : String) (f : CacheFile) :
    (s.write name f).lookup name = some f := by
  simp [Store.write, List.lookup_cons]

/-! ## C7 -/

/-- C7: a `get` that finds an on-disk object whose storage age is at
least `DISK_CACHE_TTL` deletes it and proceeds exactly as a miss — with
a successful download it persists the fresh bytes under the key
(`mtimeMs = now`) and returns them with `fromCache = false` and
`cacheAge = 0`. -/
theorem ttl_expired_treated_as_miss {now tsMs : Int}
    {radarId timestamp : String} {resolution : Nat} {store : Store}
    {file : CacheFile} {buffer : List Nat}
    (hres : resolution ∈ SUPPORTED_RESOLUTIONS)
    (hlook : store.lookup (imageCachePath radarId timestamp resolution) = some file)
    (httl : now - file.mtimeMs ≥ DISK_CACHE_TTL * 1000) :
    getRadarImage now tsMs radarId timestamp resolution
        (Except.ok buffer) store =
      (Except.ok { buffer := buffer, fromCache := false, cacheAge := 0,
                   imageAge := (now - tsMs).fdiv 1000,
                   resolution := resolution },
       (store.erase (imageCachePath radarId timestamp resolution)).write
         (imageCachePath radarId timestamp resolution)
         { mtimeMs := now, bytes := buffer }) ∧
    ((getRadarImage now tsMs radarId timestamp resolution
        (Except.ok buffer) store).2).lookup
        (imageCachePath radarId timestamp resolution) =
      some { mtimeMs := now, bytes := buffer } := by
  have h := @getRadarImage_of_miss now tsMs radarId timestamp resolution
    (Except.ok buffer) store
    (store.erase (imageCachePath radarId timestamp resolution)) hres
    (@cacheCheck_expired now tsMs radarId timestamp resolution store file
      hlook httl)
  refine ⟨h, ?_⟩
  rw [h]
  exact Store.lookup_write _ _ _

/-- Witness for `ttl_expired_treated_as_miss`: a copy stored 25 hours ago. -/
theorem ttl_expired_treated_as_miss_witness :
    (64 ∈ SUPPORTED_RESOLUTIONS ∧
     ([("IDR023_202410230000_64.png",
        ({ mtimeMs := 0, bytes := [1] } : CacheFile))] : Store).lookup
        (imageCachePath "IDR023" "202410230000" 64) =
        some { mtimeMs := 0, bytes := [1] } ∧
     (90000000 - 0 : Int) ≥ DISK_CACHE_TTL * 1000) ∧
    getRadarImage 90000000 0 "IDR023" "202410230000" 64 (Except.ok [7])
        [("IDR023_202410230000_64.png", { mtimeMs := 0, bytes := [1] })] =
      (Except.ok { buffer := [7], fromCache := false, cacheAge := 0,
                   imageAge := ((90000000 : Int) - 0).fdiv 1000,
                   resolution := 64 },
       Store.write
         (Store.erase
           [("IDR023_202410230000_64.png", { mtimeMs := 0, bytes := [1] })]
           (imageCachePath "IDR023" "202410230000" 64))
         (imageCachePath "IDR023" "202410230000" 64)
         { mtimeMs := 90000000, bytes := [7] }) := by
  refine ⟨⟨by decide, by rfl, by decide⟩, ?_⟩
  exact (@ttl_expired_treated_as_miss 90000000 0 "IDR023" "202410230000" 64
    [("IDR023_202410230000_64.png", { mtimeMs := 0, bytes := [1] })]
    { mtimeMs := 0, bytes := [1] } [7]
    (by decide) (by rfl) (by decide)).1

/-! ## C8 -/

/-- C8: when the remote transfer fails (any of the three error kinds),
nothing is persisted: the store after the failed call is exactly the
store as it stood at the moment the download began, and the error is
surfaced unchanged.  `downloadFromFTP` only ever yields a buffer on the
stream `end` event, so no partial object can reach the store. -/
theorem failed_download_persists_nothing {now tsMs : Int}
    {radarId timestamp : String} {resolution : Nat} {store : Store}
    {e : FetchErr}
    (hres : resolution ∈ SUPPORTED_RESOLUTIONS)
    (hmiss : (cacheCheck now tsMs radarId timestamp resolution store).1 = none) :
    getRadarImage now tsMs radarId timestamp resolution
        (downloadFromFTP (Except.error e)) store =
      (Except.error (GetErr.remote e),
       (cacheCheck now tsMs radarId timestamp resolution store).2) := by
  have hcc : cacheCheck now tsMs radarId timestamp resolution store =
      (none, (cacheCheck now tsMs radarId timestamp resolution store).2) := by
    rw [← hmiss]
  rw [getRadarImage_of_miss hres hcc]
  rfl

/-- Witness for `failed_download_persists_nothing`: a timed-out transfer
against an empty store changes nothing. -/
theorem failed_download_persists_nothing_witness :
    (64 ∈ SUPPORTED_RESOLUTIONS ∧
     (cacheCheck 100000 0 "IDR023" "202410231430" 64 ([] : Store)).1 = none) ∧
    getRadarImage 100000 0 "IDR023" "202410231430" 64
        (downloadFromFTP (Except.error FetchErr.timeout)) [] =
      (Except.error (GetErr.remote FetchErr.timeout),
       (cacheCheck 100000 0 "IDR023" "202410231430" 64 ([] : Store)).2) := by
  refine ⟨⟨by decide, by rfl⟩, ?_⟩
  exact @failed_download_persists_nothing 100000 0 "IDR023" "202410231430" 64
    [] FetchErr.timeout (by decide) (by rfl)

/-! ## C5 -/

/-- One historical-key cache hit: if the key is historical at the time of
the call and the stored copy is within `DISK_CACHE_TTL`, the call returns
the stored bytes from cache and leaves the store untouched, whatever the
remote would have answered. -/
theorem get_historical_hit {now tsMs : Int} {radarId timestamp : String}
    {resolution : Nat} {fetch : Except FetchErr (List Nat)} {store : Store}
    {file : CacheFile}
    (hres : resolution ∈ SUPPORTED_RESOLUTIONS)
    (hlook : store.lookup (imageCachePath radarId timestamp resolution) = some file)
    (hhist : CURRENT_IMAGE_THRESHOLD * 1000 ≤ now - tsMs)
    (httl : now - file.mtimeMs < DISK_CACHE_TTL * 1000) :
    getRadarImage now tsMs radarId timestamp resolution fetch store =
      (Except.ok { buffer := file.bytes, fromCache := true,
                   cacheAge := (now - file.mtimeMs).fdiv 1000,
                   imageAge := (now - tsMs).fdiv 1000,
                   resolution := resolution },
       store) :=
  getRadarImage_of_hit hres (cacheCheck_hit hlook httl (Or.inl (not_lt.2 hhist)))

/-- C5: for a historical key (content age ≥ 1800 s at each request) with
a stored object, every `get` in a whole sequence of calls within
`DISK_CACHE_TTL` of the store time returns the stored bytes with
`fromCache = true` and leaves the store unchanged — for every possible
remote outcome at every instant, i.e. no remote download is ever
consulted, however many times `get` is called. -/
theorem historical_never_redownloads {tsMs : Int}
    {radarId timestamp : String} {resolution : Nat}
    {fetch : Int → Except FetchErr (List Nat)} {store : Store}
    {file : CacheFile} {times : List Int}
    (hres : resolution ∈ SUPPORTED_RESOLUTIONS)
    (hlook : store.lookup (imageCachePath radarId timestamp resolution) = some file)
    (htimes : ∀ t ∈ times, CURRENT_IMAGE_THRESHOLD * 1000 ≤ t - tsMs ∧
      t - file.mtimeMs < DISK_CACHE_TTL * 1000) :
    runGets tsMs radarId timestamp resolution fetch times store =
      (times.map (fun t => Except.ok
        { buffer := file.bytes, fromCache := true,
          cacheAge := (t - file.mtimeMs).fdiv 1000,
          imageAge := (t - tsMs).fdiv 1000,
          resolution := resolution }),
       store) := by
  induction times with
  | nil => rfl
  | cons t ts ih =>
      have ht := htimes t (List.mem_cons_self t ts)
      have hstep := @get_historical_hit t tsMs radarId timestamp resolution
        (fetch t) store file hres hlook ht.1 ht.2
      have hrest := ih (fun u hu => htimes u (List.mem_cons_of_mem t hu))
      simp [runGets, hstep, hrest]

/-- Witness for `historical_never_redownloads`: three calls over 16 hours
on a copy stored at t = 0, every one a cache hit. -/
theorem historical_never_redownloads_witness :
    (64 ∈ SUPPORTED_RESOLUTIONS ∧
     ([("IDR023_202410230000_64.png",
        ({ mtimeMs := 0, bytes := [3] } : CacheFile))] : Store).lookup
        (imageCachePath "IDR023" "202410230000" 64) =
        some { mtimeMs := 0, bytes := [3] } ∧
     (∀ t ∈ [2000000, 30000000, 57600000],
        CURRENT_IMAGE_THRESHOLD * 1000 ≤ t - (0 : Int) ∧
        t - (0 : Int) < DISK_CACHE_TTL * 1000)) ∧
    runGets 0 "IDR023" "202410230000" 64
        (fun _ => Except.error FetchErr.timeout)
        [2000000, 30000000, 57600000]
        [("IDR023_202410230000_64.png", { mtimeMs := 0, bytes := [3] })] =
      (([2000000, 30000000, 57600000] : List Int).map (fun t => Except.ok
        { buffer := [3], fromCache := true,
          cacheAge := (t - (0 : Int)).fdiv 1000,
          imageAge := (t - (0 : Int)).fdiv 1000, resolution := 64 }),
       [("IDR023_202410230000_64.png", { mtimeMs := 0, bytes := [3] })]) := by
  refine ⟨⟨by decide, by rfl, by decide⟩, ?_⟩
  exact @historical_never_redownloads 0 "IDR023" "202410230000" 64
    (fun _ => Except.error FetchErr.timeout)
    [("IDR023_202410230000_64.png", { mtimeMs := 0, bytes := [3] })]
    { mtimeMs := 0, bytes := [3] } [2000000, 30000000, 57600000]
    (by decide) (by rfl) (by decide)

end BomRadarProxy

namespace BomRadarProxy

theorem beqComm {α : Type _} [BEq α] [LawfulBEq α] (a b : α) :
    (a == b) = (b == a) := by
  by_cases h : a = b
  · subst h; rfl
  · simp [beq_eq_false_iff_ne, h, Ne.symm h]

/-- One failure-free pass of the TTL-sweep loop deletes from the running
store exactly the listed `.png` entries whose age strictly exceeds the
TTL. -/
theorem cleanupCacheLoop_noFail (now : Int)
    (l : List (String × CacheFile)) (st : Store) :
    cleanupCacheLoop now (fun _ => false) l st =
      st.filter (fun e => !(l.any (fun x => x.1 == e.1 && ttlExpired now x))) := by
  induction l generalizing st with
  | nil => simp [cleanupCacheLoop]
  | cons x l ih =>
      by_cases hpx : isPngName x.1 = false
      · rw [cleanupCacheLoop, if_pos hpx, ih]
        apply List.filter_congr
        intro e he
        simp [ttlExpired, hpx]
      · have hpx' : isPngName x.1 = true := by
          revert hpx; cases isPngName x.1 <;> simp
        by_cases hexp : now - x.2.mtimeMs > DISK_CACHE_TTL * 1000
        · have hdel : ttlExpired now x = true := by
            simp [ttlExpired, hpx', hexp]
          rw [cleanupCacheLoop, if_neg (by simp [hpx']), if_neg (by simp),
            if_pos hexp, ih]
          rw [Store.erase, List.filter_filter]
          apply List.filter_congr
          intro e he
          simp only [List.any_cons, hdel, Bool.and_true, beqComm x.1 e.1]
          cases e.1 == x.1 <;> simp
        · have hdel : ttlExpired now x = false := by
            simp [ttlExpired, hexp]
          rw [cleanupCacheLoop, if_neg (by simp [hpx']), if_neg (by simp),
            if_neg hexp, ih]
          apply List.filter_congr
          intro e he
          simp [List.any_cons, hdel]

/-! ## C2 -/

/-- C2, the claim as stated is false at the boundary: an object whose
storage age equals `DISK_CACHE_TTL` exactly (spec: `storageAge ≥ DISK_TTL`
must be deleted) survives one run of the TTL sweep, because `cleanupCache`
deletes only on the strict comparison `age > DISK_CACHE_TTL`. -/
theorem ttl_sweep_boundary_cex :
    isPngName "a.png" = true ∧
    (86400000 - 0 : Int) / 1000 ≥ DISK_CACHE_TTL ∧
    cleanupCache 86400000 [("a.png", { mtimeMs := 0, bytes := [0] })] =
      [("a.png", { mtimeMs := 0, bytes := [0] })] := by
  exact ⟨by decide, by decide, by rfl⟩

/-- C2 (amended): one failure-free run of the TTL sweep deletes exactly
the `.png` objects whose storage age **strictly** exceeds
`DISK_CACHE_TTL`; every object at or below the TTL (and every
non-`.png` entry) survives. -/
theorem ttl_sweep_deletes_exactly_strictly_expired (now : Int)
    (store : Store) (hnd : (store.map Prod.fst).Nodup) :
    cleanupCache now store =
      store.filter (fun e => !(ttlExpired now e)) := by
  rw [cleanupCache, cleanupCacheWithFailures, cleanupCacheLoop_noFail]
  apply List.filter_congr
  intro e he
  have hany : (store.any (fun x => x.1 == e.1 && ttlExpired now x)) =
      ttlExpired now e := by
    cases hte : ttlExpired now e with
    | false =>
        rw [Bool.eq_false_iff]
        intro hco
        obtain ⟨x, hx, hcond⟩ := List.any_eq_true.1 hco
        have hcond' : x.1 = e.1 ∧ ttlExpired now x = true := by simpa using hcond
        have hxe : x = e := List.inj_on_of_nodup_map hnd hx he hcond'.1
        have hee : ttlExpired now e = true := hxe ▸ hcond'.2
        rw [hee] at hte
        exact Bool.noConfusion hte
    | true =>
        rw [List.any_eq_true]
        exact ⟨e, he, by simp [hte]⟩
  rw [hany]

/-- Witness for `ttl_sweep_deletes_exactly_strictly_expired`: a store
with one fresh and one long-expired object. -/
theorem ttl_sweep_exact_witness :
    (((([("old.png", { mtimeMs := 0, bytes := [1] }),
        ("new.png", { mtimeMs := 98000000, bytes := [2] })] : Store).map
        Prod.fst).Nodup) ∧
     cleanupCache 100000000
        [("old.png", { mtimeMs := 0, bytes := [1] }),
         ("new.png", { mtimeMs := 98000000, bytes := [2] })] =
      ([("old.png", { mtimeMs := 0, bytes := [1] }),
        ("new.png", { mtimeMs := 98000000, bytes := [2] })] : Store).filter
        (fun e => !(ttlExpired 100000000 e))) := by
  refine ⟨by decide, ?_⟩
  exact ttl_sweep_deletes_exactly_strictly_expired 100000000
    [("old.png", { mtimeMs := 0, bytes := [1] }),
     ("new.png", { mtimeMs := 98000000, bytes := [2] })] (by decide)

/-! ## C3 -/

/-- C3, the claim as stated is false: with two long-expired `.png`
objects and a failure injected on the first (`a.png`), one sweep run
leaves **both** in place — the per-file error aborts the remainder of
the sweep instead of skipping just the failing file, so the other
eligible file (`b.png`) is not processed in that run. -/
theorem sweep_failure_cex :
    ttlExpired 100000000 ("b.png", { mtimeMs := 0, bytes := [1] }) = true ∧
    cleanupCacheWithFailures 100000000 (fun n => n == "a.png")
      [("a.png", { mtimeMs := 0, bytes := [0] }),
       ("b.png", { mtimeMs := 0, bytes := [1] })] =
      [("a.png", { mtimeMs := 0, bytes := [0] }),
       ("b.png", { mtimeMs := 0, bytes := [1] })] := by
  exact ⟨by decide, by rfl⟩

theorem cleanupCacheLoop_stops_at_failure {now : Int}
    {fails : String → Bool} {l1 l2 : List (String × CacheFile)}
    {e : String × CacheFile}
    (h1 : ∀ x ∈ l1, fails x.1 = false)
    (hpng : isPngName e.1 = true) (hf : fails e.1 = true) :
    ∀ st : Store, cleanupCacheLoop now fails (l1 ++ e :: l2) st =
      cleanupCacheLoop now (fun _ => false) l1 st := by
  induction l1 with
  | nil =>
      intro st
      simp [cleanupCacheLoop, hpng, hf]
  | cons x l1 ih =>
      intro st
      have hx : fails x.1 = false := h1 x (List.mem_cons_self _ _)
      have h1' : ∀ y ∈ l1, fails y.1 = false :=
        fun y hy => h1 y (List.mem_cons_of_mem _ hy)
      by_cases hpx : isPngName x.1 = false
      · rw [List.cons_append, cleanupCacheLoop, if_pos hpx,
          cleanupCacheLoop, if_pos hpx]
        exact ih h1' st
      · by_cases hexp : now - x.2.mtimeMs > DISK_CACHE_TTL * 1000
        · rw [List.cons_append, cleanupCacheLoop, if_neg hpx,
            if_neg (by simp [hx]), if_pos hexp,
            cleanupCacheLoop, if_neg hpx, if_neg (by simp), if_pos hexp]
          exact ih h1' _
        · rw [List.cons_append, cleanupCacheLoop, if_neg hpx,
            if_neg (by simp [hx]), if_neg hexp,
            cleanupCacheLoop, if_neg hpx, if_neg (by simp), if_neg hexp]
          exact ih h1' st

theorem evictLoopWithFailures_stops_at_failure {ts tg : Nat}
    {fails : String → Bool} {fl1 fl2 : List FileStat} {f : FileStat}
    (h2 : ∀ x ∈ fl1, fails x.path = false) (hf : fails f.path = true) :
    ∀ freed : Nat, evictLoopWithFailures ts tg fails (fl1 ++ f :: fl2) freed =
      (evictLoop ts tg fl1 freed).1 := by
  induction fl1 with
  | nil =>
      intro freed
      by_cases hle : 5 * (ts - freed) ≤ tg
      · simp [evictLoopWithFailures, evictLoop, hle]
      · simp [evictLoopWithFailures, evictLoop, hle, hf]
  | cons x fl1 ih =>
      intro freed
      have hx : fails x.path = false := h2 x (List.mem_cons_self _ _)
      have h2' : ∀ y ∈ fl1, fails y.path = false :=
        fun y hy => h2 y (List.mem_cons_of_mem _ hy)
      by_cases hle : 5 * (ts - freed) ≤ tg
      · simp [evictLoopWithFailures, evictLoop, hle]
      · simp [evictLoopWithFailures, evictLoop, hle, hx, ih h2']

/-- C3 (amended): in both eviction sweeps a per-file `fs` failure is
caught by the **sweep-level** handler, not per file: the sweep keeps the
deletions already performed but stops at the failing file, leaving it
and every later file of that run unprocessed (self-correction is left to
the next run); the process itself continues, the sweep still returning a
store. -/
theorem sweep_failure_aborts_remainder {now : Int}
    {fails : String → Bool} {st : Store}
    {l1 l2 : List (String × CacheFile)} {e : String × CacheFile}
    {ts tg : Nat} {fl1 fl2 : List FileStat} {f : FileStat} {freed : Nat}
    (h1 : ∀ x ∈ l1, fails x.1 = false)
    (hpng : isPngName e.1 = true) (hf : fails e.1 = true)
    (h2 : ∀ x ∈ fl1, fails x.path = false) (hferr : fails f.path = true) :
    cleanupCacheLoop now fails (l1 ++ e :: l2) st =
      cleanupCacheLoop now (fun _ => false) l1 st ∧
    evictLoopWithFailures ts tg fails (fl1 ++ f :: fl2) freed =
      (evictLoop ts tg fl1 freed).1 :=
  ⟨cleanupCacheLoop_stops_at_failure h1 hpng hf st,
   evictLoopWithFailures_stops_at_failure h2 hferr freed⟩

/-- Witness for `sweep_failure_aborts_remainder`: a failure on `b.png`
stops the TTL sweep after `a.png` was handled, and stops the size-sweep
deletion loop immediately. -/
theorem sweep_failure_aborts_remainder_witness :
    ((∀ x ∈ ([("a.png", { mtimeMs := 0, bytes := [0] })] :
        List (String × CacheFile)), (x.1 == "b.png") = false) ∧
     isPngName "b.png" = true ∧
     (("b.png" : String) == "b.png") = true ∧
     (∀ x ∈ ([] : List FileStat), (x.path == "b.png") = false) ∧
     ((⟨"b.png", 5, 0⟩ : FileStat).path == "b.png") = true) ∧
    (cleanupCacheLoop 100000000 (fun n => n == "b.png")
        ([("a.png", { mtimeMs := 0, bytes := [0] })] ++
          ("b.png", { mtimeMs := 0, bytes := [1] }) ::
          [("c.png", { mtimeMs := 0, bytes := [2] })])
        [("a.png", { mtimeMs := 0, bytes := [0] }),
         ("b.png", { mtimeMs := 0, bytes := [1] }),
         ("c.png", { mtimeMs := 0, bytes := [2] })] =
      cleanupCacheLoop 100000000 (fun _ => false)
        [("a.png", { mtimeMs := 0, bytes := [0] })]
        [("a.png", { mtimeMs := 0, bytes := [0] }),
         ("b.png", { mtimeMs := 0, bytes := [1] }),
         ("c.png", { mtimeMs := 0, bytes := [2] })] ∧
     evictLoopWithFailures 20 4 (fun n => n == "b.png")
        ([] ++ (⟨"b.png", 5, 0⟩ : FileStat) :: [⟨"c.png", 5, 1⟩]) 0 =
      (evictLoop 20 4 [] 0).1) := by
  refine ⟨⟨by decide, by decide, by decide, by decide, by decide⟩, ?_⟩
  exact sweep_failure_aborts_remainder (by decide) (by decide) (by decide)
    (by decide) (by decide)

end BomRadarProxy

namespace BomRadarProxy

theorem lookup_filter_none {α β : Type _} [BEq α] {l : List (α × β)} {k : α}
    (p : α × β → Bool) (h : l.lookup k = none) :
    (l.filter p).lookup k = none := by
  induction l with
  | nil => rfl
  | cons x l ih =>
      obtain ⟨xa, xb⟩ := x
      rw [List.lookup_cons] at h
      cases hk : k == xa
      · rw [hk] at h
        by_cases hp : p (xa, xb) = true
        · simp [List.filter_cons, hp, List.lookup_cons, hk, ih h]
        · simp [List.filter_cons, hp, ih h]
      · rw [hk] at h
        exact absurd h (by simp)

/-- The `metaCache` hit branch: a cached set with `force = false` is
returned at once — the rate limiter is not consulted and the result
carries no `rateLimited` flag. -/
theorem list_cached_hit {now : Int} {radarId : String}
    {resolution maxResults : Nat} {remote : Except FetchErr (List DirEntry)}
    {st : MetaState} {suffix : String} {ts : List String}
    (hsfx : RESOLUTION_SUFFIX resolution = some suffix)
    (hc : st.metaCache.lookup (timestampsCacheKey radarId resolution) = some ts) :
    listAvailableTimestamps now radarId resolution maxResults false remote st =
      (Except.ok { timestamps := ts, fromCache := true,
                   nextRefreshIn := getTimeUntilNextRefresh now st radarId,
                   rateLimited := false }, st) := by
  simp [listAvailableTimestamps, hsfx, hc]

/-- The rate-limited branch with no cached set: the call fails with the
wait time. -/
theorem list_rate_limited_error {now : Int} {radarId : String}
    {resolution maxResults : Nat} {remote : Except FetchErr (List DirEntry)}
    {st : MetaState} {suffix : String}
    (hsfx : RESOLUTION_SUFFIX resolution = some suffix)
    (hc : st.metaCache.lookup (timestampsCacheKey radarId resolution) = none)
    (hcr : canRefreshTimestamps now st radarId = false) :
    listAvailableTimestamps now radarId resolution maxResults false remote st =
      (Except.error
        (ListErr.rateLimited (getTimeUntilNextRefresh now st radarId)), st) := by
  simp [listAvailableTimestamps, hsfx, hc, hcr]

/-- The remote-listing branch on success: reached whenever `force = true`
or the limiter allows a refresh with no cached set; replaces the cached
set and stamps `lastTimestampRefresh` to `now`. -/
theorem list_refresh_ok {now : Int} {radarId : String}
    {resolution maxResults : Nat} {force : Bool} {entries : List DirEntry}
    {st : MetaState} {suffix : String}
    (hsfx : RESOLUTION_SUFFIX resolution = some suffix)
    (hgo : force = true ∨
      (st.metaCache.lookup (timestampsCacheKey radarId resolution) = none ∧
       canRefreshTimestamps now st radarId = true)) :
    listAvailableTimestamps now radarId resolution maxResults force
        (Except.ok entries) st =
      (Except.ok { timestamps := extractTimestamps radarId suffix maxResults entries,
                   fromCache := false,
                   nextRefreshIn := TIMESTAMP_REFRESH_INTERVAL / 1000,
                   rateLimited := false },
       { metaCache := (timestampsCacheKey radarId resolution,
           extractTimestamps radarId suffix maxResults entries) ::
           st.metaCache.filter
             (fun e => !(e.1 == timestampsCacheKey radarId resolution)),
         lastTimestampRefresh := (radarId, now) ::
           st.lastTimestampRefresh.filter (fun e => !(e.1 == radarId)) }) := by
  rcases hgo with hforce | ⟨hc, hcr⟩
  · subst hforce
    rcases hc : st.metaCache.lookup (timestampsCacheKey radarId resolution) with
      _ | ts <;>
      simp [listAvailableTimestamps, hsfx, hc, updateTimestampRefreshTime]
  · simp [listAvailableTimestamps, hsfx, hc, hcr, updateTimestampRefreshTime]

/-- The remote-listing branch on transport failure: the error is
propagated and nothing is cached or stamped. -/
theorem list_refresh_error {now : Int} {radarId : String}
    {resolution maxResults : Nat} {force : Bool} {e : FetchErr}
    {st : MetaState} {suffix : String}
    (hsfx : RESOLUTION_SUFFIX resolution = some suffix)
    (hgo : force = true ∨
      (st.metaCache.lookup (timestampsCacheKey radarId resolution) = none ∧
       canRefreshTimestamps now st radarId = true)) :
    listAvailableTimestamps now radarId resolution maxResults force
        (Except.error e) st =
      (Except.error (ListErr.remote e), st) := by
  rcases hgo with hforce | ⟨hc, hcr⟩
  · subst hforce
    rcases hc : st.metaCache.lookup (timestampsCacheKey radarId resolution) with
      _ | ts <;>
      simp [listAvailableTimestamps, hsfx, hc]
  · simp [listAvailableTimestamps, hsfx, hc, hcr]

/-! ## C6 -/

/-- C6, the claim as stated is false: with a cached set present and the
limiter blocking (`now - lastRefreshAt = 300 s < 600 s`), a non-forced
`list` returns the cached set with `rateLimited = false`, not `true` —
the cached-set branch returns before the limiter is consulted, so the
`rateLimited: true` branch of the source is unreachable when a cached
set exists. -/
theorem rate_limited_flag_cex :
    canRefreshTimestamps 300000
      { metaCache := [(timestampsCacheKey "IDR023" 64, ["202410231400"])],
        lastTimestampRefresh := [("IDR023", 0)] } "IDR023" = false ∧
    listAvailableTimestamps 300000 "IDR023" 64 20 false
      (Except.error FetchErr.timeout)
      { metaCache := [(timestampsCacheKey "IDR023" 64, ["202410231400"])],
        lastTimestampRefresh := [("IDR023", 0)] } =
      (Except.ok { timestamps := ["202410231400"], fromCache := true,
                   nextRefreshIn := 300, rateLimited := false },
       { metaCache := [(timestampsCacheKey "IDR023" 64, ["202410231400"])],
         lastTimestampRefresh := [("IDR023", 0)] }) := by
  exact ⟨by decide, by rfl⟩

/-- C6 (amended): for a non-forced `list` while the limiter blocks
refresh: a cached set, when present, is returned together with the
remaining wait time but with `rateLimited = false` (the cached-set
branch answers before the limiter is consulted); with no cached set the
call fails with a `RateLimited` error carrying the wait time; and
`force = true` always bypasses the limiter and attempts a remote
listing, whose outcome (fresh set or transport error) is returned. -/
theorem rate_limiter_paths {now : Int} {radarId : String}
    {resolution maxResults : Nat} {remote : Except FetchErr (List DirEntry)}
    {st : MetaState} {suffix : String}
    (hsfx : RESOLUTION_SUFFIX resolution = some suffix)
    (hblocked : canRefreshTimestamps now st radarId = false) :
    (∀ ts, st.metaCache.lookup (timestampsCacheKey radarId resolution) = some ts →
      listAvailableTimestamps now radarId resolution maxResults false remote st =
        (Except.ok { timestamps := ts, fromCache := true,
                     nextRefreshIn := getTimeUntilNextRefresh now st radarId,
                     rateLimited := false }, st)) ∧
    (st.metaCache.lookup (timestampsCacheKey radarId resolution) = none →
      listAvailableTimestamps now radarId resolution maxResults false remote st =
        (Except.error
          (ListErr.rateLimited (getTimeUntilNextRefresh now st radarId)), st)) ∧
    (∀ entries, remote = Except.ok entries →
      listAvailableTimestamps now radarId resolution maxResults true remote st =
        (Except.ok { timestamps :=
                       extractTimestamps radarId suffix maxResults entries,
                     fromCache := false,
                     nextRefreshIn := TIMESTAMP_REFRESH_INTERVAL / 1000,
                     rateLimited := false },
         { metaCache := (timestampsCacheKey radarId resolution,
             extractTimestamps radarId suffix maxResults entries) ::
             st.metaCache.filter
               (fun e => !(e.1 == timestampsCacheKey radarId resolution)),
           lastTimestampRefresh := (radarId, now) ::
             st.lastTimestampRefresh.filter (fun e => !(e.1 == radarId)) })) ∧
    (∀ e, remote = Except.error e →
      listAvailableTimestamps now radarId resolution maxResults true remote st =
        (Except.error (ListErr.remote e), st)) := by
  refine ⟨fun ts hc => list_cached_hit hsfx hc,
          fun hc => list_rate_limited_error hsfx hc hblocked,
          fun entries hrem => ?_, fun e hrem => ?_⟩
  · rw [hrem]
    exact list_refresh_ok hsfx (Or.inl rfl)
  · rw [hrem]
    exact list_refresh_error hsfx (Or.inl rfl)

/-- Witness for `rate_limiter_paths`: blocked limiter, no cached set —
the call fails rate-limited with a 300 s wait. -/
theorem rate_limiter_paths_witness :
    (RESOLUTION_SUFFIX 64 = some "1" ∧
     canRefreshTimestamps 300000
       ({ metaCache := [], lastTimestampRefresh := [("IDR023", 0)] } :
         MetaState) "IDR023" = false ∧
     (({ metaCache := [], lastTimestampRefresh := [("IDR023", 0)] } :
         MetaState)).metaCache.lookup (timestampsCacheKey "IDR023" 64) = none) ∧
    listAvailableTimestamps 300000 "IDR023" 64 20 false
      (Except.error FetchErr.timeout)
      { metaCache := [], lastTimestampRefresh := [("IDR023", 0)] } =
      (Except.error (ListErr.rateLimited (getTimeUntilNextRefresh 300000
        { metaCache := [], lastTimestampRefresh := [("IDR023", 0)] } "IDR023")),
       { metaCache := [], lastTimestampRefresh := [("IDR023", 0)] }) := by
  refine ⟨⟨by decide, by decide, by rfl⟩, ?_⟩
  exact (@rate_limiter_paths 300000 "IDR023" 64 20
    (Except.error FetchErr.timeout)
    { metaCache := [], lastTimestampRefresh := [("IDR023", 0)] } "1"
    (by decide) (by decide)).2.1 (by rfl)

end BomRadarProxy

namespace BomRadarProxy

theorem resolution_of_suffix {n : Nat} {s : String}
    (h : RESOLUTION_SUFFIX n = some s) :
    n = 64 ∨ n = 128 ∨ n = 256 ∨ n = 512 := by
  unfold RESOLUTION_SUFFIX at h
  split_ifs at h with h1 h2 h3 h4
  · exact Or.inl h1
  · exact Or.inr (Or.inl h2)
  · exact Or.inr (Or.inr (Or.inl h3))
  · exact Or.inr (Or.inr (Or.inr h4))

/-- Distinct valid resolutions give distinct `metaCache` keys for the
same radar, while the limiter key (the radar id alone) is shared. -/
theorem key_ne_of_resolution_ne {r : String} {A B : Nat} {sA sB : String}
    (hA : RESOLUTION_SUFFIX A = some sA) (hB : RESOLUTION_SUFFIX B = some sB)
    (hAB : A ≠ B) :
    timestampsCacheKey r A ≠ timestampsCacheKey r B := by
  intro he
  have hd := congrArg String.data he
  simp only [timestampsCacheKey, String.data_append] at hd
  have hts : (toString A).data = (toString B).data :=
    List.append_cancel_left hd
  have htos : toString A = toString B := congrArg String.mk hts
  apply hAB
  rcases resolution_of_suffix hA with h | h | h | h <;>
    rcases resolution_of_suffix hB with h' | h' | h' | h' <;>
      subst h <;> subst h' <;>
      first
      | rfl
      | exact absurd htos (by decide)

/-! ## C9 -/

/-- C9: the refresh limiter is keyed by the radar id alone while the
cached timestamp sets are keyed by (radar id, resolution).  After any
successful remote listing for `(r, A)` at `t0`, a non-forced `list` for
`(r, B)` (`B ≠ A`, never listed, so no cached set exists for it) within
`TIMESTAMP_REFRESH_INTERVAL` of `t0` fails with the rate-limit error. -/
theorem limiter_shared_across_resolutions {t0 t1 : Int} {r : String}
    {A B maxA maxB : Nat} {forceA : Bool} {entriesA : List DirEntry}
    {remoteB : Except FetchErr (List DirEntry)} {st0 : MetaState}
    {sA sB : String}
    (hA : RESOLUTION_SUFFIX A = some sA)
    (hB : RESOLUTION_SUFFIX B = some sB)
    (hAB : A ≠ B)
    (hgoA : forceA = true ∨
      (st0.metaCache.lookup (timestampsCacheKey r A) = none ∧
       canRefreshTimestamps t0 st0 r = true))
    (hB0 : st0.metaCache.lookup (timestampsCacheKey r B) = none)
    (hwin : t1 - t0 < TIMESTAMP_REFRESH_INTERVAL) :
    listAvailableTimestamps t1 r B maxB false remoteB
        (listAvailableTimestamps t0 r A maxA forceA
          (Except.ok entriesA) st0).2 =
      (Except.error (ListErr.rateLimited (getTimeUntilNextRefresh t1
          (listAvailableTimestamps t0 r A maxA forceA
            (Except.ok entriesA) st0).2 r)),
       (listAvailableTimestamps t0 r A maxA forceA
         (Except.ok entriesA) st0).2) := by
  have h1 := @list_refresh_ok t0 r A maxA forceA entriesA st0 sA hA hgoA
  have hst1 : (listAvailableTimestamps t0 r A maxA forceA
      (Except.ok entriesA) st0).2 =
      { metaCache := (timestampsCacheKey r A,
          extractTimestamps r sA maxA entriesA) ::
          st0.metaCache.filter
            (fun e => !(e.1 == timestampsCacheKey r A)),
        lastTimestampRefresh := (r, t0) ::
          st0.lastTimestampRefresh.filter (fun e => !(e.1 == r)) } := by
    rw [h1]
  rw [hst1]
  have hkeyne : (timestampsCacheKey r B == timestampsCacheKey r A) = false :=
    beq_eq_false_iff_ne.2 (key_ne_of_resolution_ne hB hA hAB.symm)
  have hnlt : ¬ (t1 - t0 ≥ TIMESTAMP_REFRESH_INTERVAL) := not_le.2 hwin
  apply list_rate_limited_error hB
  · show (((timestampsCacheKey r A, extractTimestamps r sA maxA entriesA) ::
        st0.metaCache.filter
          (fun e => !(e.1 == timestampsCacheKey r A))).lookup
        (timestampsCacheKey r B)) = none
    rw [List.lookup_cons]
    rw [hkeyne]
    exact lookup_filter_none _ hB0
  · show canRefreshTimestamps t1 _ r = false
    simp [canRefreshTimestamps, List.lookup_cons, hnlt]

/-- Witness for `limiter_shared_across_resolutions`: a forced listing
for resolution 64 at t = 0 rate-limits resolution 128 at t = 300 s. -/
theorem limiter_shared_across_resolutions_witness :
    (RESOLUTION_SUFFIX 64 = some "1" ∧
     RESOLUTION_SUFFIX 128 = some "2" ∧
     (64 : Nat) ≠ 128 ∧
     (({ metaCache := [], lastTimestampRefresh := [] } :
         MetaState)).metaCache.lookup (timestampsCacheKey "IDR023" 128) = none ∧
     (300000 - 0 : Int) < TIMESTAMP_REFRESH_INTERVAL) ∧
    listAvailableTimestamps 300000 "IDR023" 128 20 false (Except.ok [])
        (listAvailableTimestamps 0 "IDR023" 64 20 true (Except.ok [])
          { metaCache := [], lastTimestampRefresh := [] }).2 =
      (Except.error (ListErr.rateLimited (getTimeUntilNextRefresh 300000
          (listAvailableTimestamps 0 "IDR023" 64 20 true (Except.ok [])
            { metaCache := [], lastTimestampRefresh := [] }).2 "IDR023")),
       (listAvailableTimestamps 0 "IDR023" 64 20 true (Except.ok [])
         { metaCache := [], lastTimestampRefresh := [] }).2) := by
  refine ⟨⟨by decide, by decide, by decide, by rfl, by decide⟩, ?_⟩
  exact @limiter_shared_across_resolutions 0 300000 "IDR023" 64 128 20 20
    true [] (Except.ok []) { metaCache := [], lastTimestampRefresh := [] }
    "1" "2" (by decide) (by decide) (by decide) (Or.inl rfl) (by rfl)
    (by decide)

/-! ## C10 -/

/-- C10: every successful remote listing — forced or an allowed
non-forced refresh — stamps `lastTimestampRefresh[radarId] = now`;
consequently the result reports
`nextRefreshIn = TIMESTAMP_REFRESH_INTERVAL / 1000` (600 s), the wait
reported immediately afterwards is the full interval, and a further
refresh is allowed exactly when `t' - now ≥ TIMESTAMP_REFRESH_INTERVAL`
— so a forced refresh postpones the next allowed non-forced refresh by
the full interval from the forced call. -/
theorem remote_listing_stamps_limiter {now : Int} {radarId : String}
    {resolution maxResults : Nat} {force : Bool} {entries : List DirEntry}
    {st : MetaState} {suffix : String}
    (hsfx : RESOLUTION_SUFFIX resolution = some suffix)
    (hgo : force = true ∨
      (st.metaCache.lookup (timestampsCacheKey radarId resolution) = none ∧
       canRefreshTimestamps now st radarId = true)) :
    ((listAvailableTimestamps now radarId resolution maxResults force
        (Except.ok entries) st).2).lastTimestampRefresh.lookup radarId =
      some now ∧
    (listAvailableTimestamps now radarId resolution maxResults force
        (Except.ok entries) st).1 =
      Except.ok { timestamps := extractTimestamps radarId suffix maxResults entries,
                  fromCache := false,
                  nextRefreshIn := TIMESTAMP_REFRESH_INTERVAL / 1000,
                  rateLimited := false } ∧
    getTimeUntilNextRefresh now
        (listAvailableTimestamps now radarId resolution maxResults force
          (Except.ok entries) st).2 radarId =
      TIMESTAMP_REFRESH_INTERVAL / 1000 ∧
    (∀ t' : Int, canRefreshTimestamps t'
        (listAvailableTimestamps now radarId resolution maxResults force
          (Except.ok entries) st).2 radarId =
      decide (t' - now ≥ TIMESTAMP_REFRESH_INTERVAL)) := by
  have h1 := @list_refresh_ok now radarId resolution maxResults force entries
    st suffix hsfx hgo
  rw [h1]
  refine ⟨by simp [List.lookup_cons], rfl, ?_, fun t' => ?_⟩
  · simp [getTimeUntilNextRefresh, List.lookup_cons, ceilDiv1000]
    decide
  · simp [canRefreshTimestamps, List.lookup_cons]

/-- Witness for `remote_listing_stamps_limiter`: a forced listing at
t = 1000 ms. -/
theorem remote_listing_stamps_limiter_witness :
    (RESOLUTION_SUFFIX 64 = some "1") ∧
    (((listAvailableTimestamps 1000 "IDR023" 64 20 true (Except.ok [])
        { metaCache := [], lastTimestampRefresh := [] }).2).lastTimestampRefresh.lookup
        "IDR023" = some 1000 ∧
     (listAvailableTimestamps 1000 "IDR023" 64 20 true (Except.ok [])
        { metaCache := [], lastTimestampRefresh := [] }).1 =
      Except.ok { timestamps := extractTimestamps "IDR023" "1" 20 [],
                  fromCache := false,
                  nextRefreshIn := TIMESTAMP_REFRESH_INTERVAL / 1000,
                  rateLimited := false } ∧
     getTimeUntilNextRefresh 1000
        (listAvailableTimestamps 1000 "IDR023" 64 20 true (Except.ok [])
          { metaCache := [], lastTimestampRefresh := [] }).2 "IDR023" =
      TIMESTAMP_REFRESH_INTERVAL / 1000 ∧
     (∀ t' : Int, canRefreshTimestamps t'
        (listAvailableTimestamps 1000 "IDR023" 64 20 true (Except.ok [])
          { metaCache := [], lastTimestampRefresh := [] }).2 "IDR023" =
      decide (t' - 1000 ≥ TIMESTAMP_REFRESH_INTERVAL))) := by
  refine ⟨by decide, ?_⟩
  exact @remote_listing_stamps_limiter 1000 "IDR023" 64 20 true []
    { metaCache := [], lastTimestampRefresh := [] } "1"
    (by decide) (Or.inl rfl)

end BomRadarProxy

namespace BomRadarProxy

theorem evictLoop_append (ts tg : Nat) (l : List FileStat) : ∀ freed : Nat,
    (evictLoop ts tg l freed).1 ++ (evictLoop ts tg l freed).2 = l := by
  induction l with
  | nil => intro freed; simp [evictLoop]
  | cons f rest ih =>
      intro freed
      by_cases hc : 5 * (ts - freed) ≤ tg
      · simp [evictLoop, hc]
      · simp [evictLoop, hc, ih (freed + f.size)]

theorem evictLoop_reaches (ts tg : Nat) (l : List FileStat) : ∀ freed : Nat,
    5 * (ts - (freed +
      (((evictLoop ts tg l freed).1).map (fun f => f.size)).sum)) ≤ tg ∨
    (evictLoop ts tg l freed).2 = [] := by
  induction l with
  | nil => intro freed; right; simp [evictLoop]
  | cons f rest ih =>
      intro freed
      by_cases hc : 5 * (ts - freed) ≤ tg
      · left
        simp [evictLoop, hc]
      · rcases ih (freed + f.size) with h | h
        · left
          simp only [evictLoop, if_neg hc, List.map_cons, List.sum_cons]
          generalize hs :
            (((evictLoop ts tg rest (freed + f.size)).1).map
              (fun f => f.size)).sum = s at h
          omega
        · right
          simp [evictLoop, hc, h]

theorem evictLoop_min (ts tg : Nat) (l : List FileStat) : ∀ (freed i : Nat),
    i < (evictLoop ts tg l freed).1.length →
    tg < 5 * (ts - (freed +
      ((((evictLoop ts tg l freed).1).take i).map (fun f => f.size)).sum)) := by
  induction l with
  | nil =>
      intro freed i h
      simp [evictLoop] at h
  | cons f rest ih =>
      intro freed i h
      by_cases hc : 5 * (ts - freed) ≤ tg
      · simp [evictLoop, hc] at h
      · cases i with
        | zero =>
            simp only [evictLoop, if_neg hc, List.take_zero, List.map_nil,
              List.sum_nil, Nat.add_zero]
            omega
        | succ i =>
            have h' : i < (evictLoop ts tg rest (freed + f.size)).1.length := by
              simpa [evictLoop, hc] using h
            have hrec := ih (freed + f.size) i h'
            simp only [evictLoop, if_neg hc, List.take_succ_cons,
              List.map_cons, List.sum_cons]
            generalize hs :
              ((((evictLoop ts tg rest (freed + f.size)).1).take i).map
                (fun f => f.size)).sum = s at hrec
            omega

theorem foldl_erase_eq_filter (d : List FileStat) : ∀ st : Store,
    d.foldl (fun s f => s.erase f.path) st =
      st.filter (fun e => !(d.any (fun f => f.path == e.1))) := by
  induction d with
  | nil => intro st; simp
  | cons f d ih =>
      intro st
      rw [List.foldl_cons, ih, Store.erase, List.filter_filter]
      apply List.filter_congr
      intro e he
      simp only [List.any_cons, beqComm e.1 f.path]
      cases f.path == e.1 <;> simp

theorem fileStatsOf_filter (d : List FileStat) (st : Store) :
    fileStatsOf (st.filter (fun e => !(d.any (fun f => f.path == e.1)))) =
      (fileStatsOf st).filter
        (fun g => !(d.any (fun f => f.path == g.path))) := by
  unfold fileStatsOf
  rw [List.filter_map, List.filter_filter, List.filter_filter]
  apply congrArg
  apply List.filter_congr
  intro e he
  exact Bool.and_comm _ _

theorem mtimeLe_trans : ∀ a b c : FileStat,
    mtimeLe a b = true → mtimeLe b c = true → mtimeLe a c = true := by
  intro a b c hab hbc
  simp only [mtimeLe, decide_eq_true_eq] at *
  omega

theorem mtimeLe_total : ∀ a b : FileStat,
    (mtimeLe a b || mtimeLe b a) = true := by
  intro a b
  simp only [mtimeLe, Bool.or_eq_true, decide_eq_true_eq]
  omega

end BomRadarProxy

namespace BomRadarProxy

/-! ## C4 -/

/-- C4: one run of the size sweep.  When the total `.png` size does not
exceed the byte budget, nothing is deleted.  When it does, the files
deleted are a leading run of the listing sorted by modification time
ascending (oldest first): the run is sorted (deletion proceeds
oldest-first), every surviving `.png` file is at least as old-stamped as
every deleted one (no object deleted while a strictly older one
remains), afterwards the remaining total is at most 0.8 of the budget
(`5 · total ≤ 4 · maxBytes`), and the run is minimal — before each
deletion the remaining total still exceeded the target. -/
theorem size_sweep_correct (maxMB : Nat) (store : Store)
    (hnd : (store.map Prod.fst).Nodup) :
    (totalCacheSize store ≤ maxCacheSizeBytes maxMB →
      checkCacheSize maxMB store = store) ∧
    (maxCacheSizeBytes maxMB < totalCacheSize store →
      5 * totalCacheSize (checkCacheSize maxMB store) ≤
        4 * maxCacheSizeBytes maxMB) ∧
    (checkCacheSizeDeleted maxMB store).Pairwise
      (fun a b => a.mtime ≤ b.mtime) ∧
    (∀ f ∈ checkCacheSizeDeleted maxMB store,
      ∀ g ∈ fileStatsOf (checkCacheSize maxMB store), f.mtime ≤ g.mtime) ∧
    (∀ i, i < (checkCacheSizeDeleted maxMB store).length →
      4 * maxCacheSizeBytes maxMB <
        5 * (totalCacheSize store -
          (((checkCacheSizeDeleted maxMB store).take i).map
            (fun f => f.size)).sum)) := by
  by_cases htr :
      ((fileStatsOf store).map (fun f => f.size)).sum > maxCacheSizeBytes maxMB
  · -- budget exceeded: the eviction loop runs
    have hdel : checkCacheSizeDeleted maxMB store =
        (evictLoop (((fileStatsOf store).map (fun f => f.size)).sum)
          (4 * maxCacheSizeBytes maxMB)
          ((fileStatsOf store).mergeSort mtimeLe) 0).1 := by
      unfold checkCacheSizeDeleted
      rw [if_pos htr]
    have happend := evictLoop_append
      (((fileStatsOf store).map (fun f => f.size)).sum)
      (4 * maxCacheSizeBytes maxMB)
      ((fileStatsOf store).mergeSort mtimeLe) 0
    have hperm : ((fileStatsOf store).mergeSort mtimeLe).Perm
        (fileStatsOf store) := List.mergeSort_perm _ mtimeLe
    have hsortedPW := @List.sorted_mergeSort FileStat mtimeLe
      mtimeLe_trans mtimeLe_total (fileStatsOf store)
    have hdkPW := happend ▸ hsortedPW
    have hPW := List.pairwise_append.1 hdkPW
    have hsum :
        (((evictLoop (((fileStatsOf store).map (fun f => f.size)).sum)
            (4 * maxCacheSizeBytes maxMB)
            ((fileStatsOf store).mergeSort mtimeLe) 0).1.map
          (fun f => f.size)).sum) +
        (((evictLoop (((fileStatsOf store).map (fun f => f.size)).sum)
            (4 * maxCacheSizeBytes maxMB)
            ((fileStatsOf store).mergeSort mtimeLe) 0).2.map
          (fun f => f.size)).sum) =
        ((fileStatsOf store).map (fun f => f.size)).sum := by
      rw [← List.sum_append, ← List.map_append, happend]
      exact (hperm.map (fun f => f.size)).sum_eq
    have hstatnd : ((fileStatsOf store).map (fun f => f.path)).Nodup := by
      unfold fileStatsOf
      rw [List.map_map]
      exact ((List.filter_sublist store).map Prod.fst).nodup hnd
    have hsortpathnd :
        (((fileStatsOf store).mergeSort mtimeLe).map (fun f => f.path)).Nodup :=
      ((hperm.map (fun f => f.path)).nodup_iff).2 hstatnd
    have hdknd :
        ((evictLoop (((fileStatsOf store).map (fun f => f.size)).sum)
            (4 * maxCacheSizeBytes maxMB)
            ((fileStatsOf store).mergeSort mtimeLe) 0).1.map (fun f => f.path) ++
         (evictLoop (((fileStatsOf store).map (fun f => f.size)).sum)
            (4 * maxCacheSizeBytes maxMB)
            ((fileStatsOf store).mergeSort mtimeLe) 0).2.map
           (fun f => f.path)).Nodup := by
      rw [← List.map_append, happend]
      exact hsortpathnd
    have hdisj := (List.nodup_append.1 hdknd).2.2
    have hstore : checkCacheSize maxMB store =
        store.filter (fun e =>
          !((checkCacheSizeDeleted maxMB store).any
            (fun f => f.path == e.1))) := by
      unfold checkCacheSize
      exact foldl_erase_eq_filter _ store
    have hstats2 : fileStatsOf (checkCacheSize maxMB store) =
        (fileStatsOf store).filter (fun g =>
          !((checkCacheSizeDeleted maxMB store).any
            (fun f => f.path == g.path))) := by
      rw [hstore]
      exact fileStatsOf_filter _ store
    have hdfilter :
        ((evictLoop (((fileStatsOf store).map (fun f => f.size)).sum)
            (4 * maxCacheSizeBytes maxMB)
            ((fileStatsOf store).mergeSort mtimeLe) 0).1.filter (fun g =>
          !((checkCacheSizeDeleted maxMB store).any
            (fun f => f.path == g.path)))) = [] := by
      rw [List.filter_eq_nil_iff]
      intro a ha
      rw [hdel]
      simp only [Bool.not_eq_true', Bool.not_eq_false]
      rw [List.any_eq_true]
      exact ⟨a, ha, by simp⟩
    have hkfilter :
        ((evictLoop (((fileStatsOf store).map (fun f => f.size)).sum)
            (4 * maxCacheSizeBytes maxMB)
            ((fileStatsOf store).mergeSort mtimeLe) 0).2.filter (fun g =>
          !((checkCacheSizeDeleted maxMB store).any
            (fun f => f.path == g.path)))) =
        (evictLoop (((fileStatsOf store).map (fun f => f.size)).sum)
            (4 * maxCacheSizeBytes maxMB)
            ((fileStatsOf store).mergeSort mtimeLe) 0).2 := by
      rw [List.filter_eq_self]
      intro a ha
      have hany : ((checkCacheSizeDeleted maxMB store).any
          (fun f => f.path == a.path)) = false := by
        rw [Bool.eq_false_iff]
        intro hco
        obtain ⟨f, hf, hfa⟩ := List.any_eq_true.1 hco
        rw [hdel] at hf
        have hfa' : f.path = a.path := beq_iff_eq.1 hfa
        exact hdisj (List.mem_map_of_mem _ hf)
          (hfa' ▸ List.mem_map_of_mem _ ha)
      rw [hany]
      rfl
    have hpermk : ((fileStatsOf store).filter (fun g =>
        !((checkCacheSizeDeleted maxMB store).any
          (fun f => f.path == g.path)))).Perm
        (evictLoop (((fileStatsOf store).map (fun f => f.size)).sum)
          (4 * maxCacheSizeBytes maxMB)
          ((fileStatsOf store).mergeSort mtimeLe) 0).2 := by
      have h1 := hperm.symm.filter (fun g =>
        !((checkCacheSizeDeleted maxMB store).any (fun f => f.path == g.path)))
      rw [← happend, List.filter_append, hdfilter, hkfilter,
        List.nil_append] at h1
      exact h1
    have hsizek : totalCacheSize (checkCacheSize maxMB store) =
        ((evictLoop (((fileStatsOf store).map (fun f => f.size)).sum)
            (4 * maxCacheSizeBytes maxMB)
            ((fileStatsOf store).mergeSort mtimeLe) 0).2.map
          (fun f => f.size)).sum := by
      unfold totalCacheSize
      rw [hstats2]
      exact (hpermk.map (fun f => f.size)).sum_eq
    refine ⟨fun h => absurd htr (not_lt.2 h), fun _ => ?_, ?_, ?_, ?_⟩
    · rcases evictLoop_reaches
        (((fileStatsOf store).map (fun f => f.size)).sum)
        (4 * maxCacheSizeBytes maxMB)
        ((fileStatsOf store).mergeSort mtimeLe) 0 with hr | hkemp
      · rw [hsizek]
        generalize hsd :
          ((evictLoop (((fileStatsOf store).map (fun f => f.size)).sum)
              (4 * maxCacheSizeBytes maxMB)
              ((fileStatsOf store).mergeSort mtimeLe) 0).1.map
            (fun f => f.size)).sum = sd at hr hsum
        generalize hsk :
          ((evictLoop (((fileStatsOf store).map (fun f => f.size)).sum)
              (4 * maxCacheSizeBytes maxMB)
              ((fileStatsOf store).mergeSort mtimeLe) 0).2.map
            (fun f => f.size)).sum = sk at hsum ⊢
        omega
      · rw [hsizek, hkemp]
        simp
    · rw [hdel]
      exact hPW.1.imp (fun hab => of_decide_eq_true hab)
    · intro f hf g hg
      rw [hstats2] at hg
      have hgk := (hpermk.mem_iff).1 hg
      rw [hdel] at hf
      exact of_decide_eq_true (hPW.2.2 f hf g hgk)
    · intro i hi
      rw [hdel] at hi ⊢
      have := evictLoop_min
        (((fileStatsOf store).map (fun f => f.size)).sum)
        (4 * maxCacheSizeBytes maxMB)
        ((fileStatsOf store).mergeSort mtimeLe) 0 i hi
      simpa using this
  · -- within budget: nothing is deleted
    have hdel : checkCacheSizeDeleted maxMB store = [] := by
      unfold checkCacheSizeDeleted
      rw [if_neg htr]
    have hsame : checkCacheSize maxMB store = store := by
      unfold checkCacheSize
      rw [hdel]
      rfl
    refine ⟨fun _ => hsame, fun h => absurd h htr, ?_, ?_, ?_⟩
    · rw [hdel]
      exact List.Pairwise.nil
    · intro f hf
      rw [hdel] at hf
      exact absurd hf (List.not_mem_nil f)
    · intro i hi
      rw [hdel] at hi
      simp at hi

end BomRadarProxy

namespace BomRadarProxy

/-- Witness for `size_sweep_correct`, exercising both branches: with a
zero byte budget the two-file store triggers the sweep and ends within
0.8 of the budget; with the default 1000 MB budget the same store is
left untouched. -/
theorem size_sweep_correct_witness :
    ((([("a.png", { mtimeMs := 5, bytes := [0] }),
        ("b.png", { mtimeMs := 3, bytes := [1] })] :
        Store).map Prod.fst).Nodup ∧
     maxCacheSizeBytes 0 < totalCacheSize
       [("a.png", { mtimeMs := 5, bytes := [0] }),
        ("b.png", { mtimeMs := 3, bytes := [1] })] ∧
     totalCacheSize
       [("a.png", { mtimeMs := 5, bytes := [0] }),
        ("b.png", { mtimeMs := 3, bytes := [1] })] ≤
       maxCacheSizeBytes 1000) ∧
    5 * totalCacheSize (checkCacheSize 0
        [("a.png", { mtimeMs := 5, bytes := [0] }),
         ("b.png", { mtimeMs := 3, bytes := [1] })]) ≤
      4 * maxCacheSizeBytes 0 ∧
    checkCacheSize 1000
        [("a.png", { mtimeMs := 5, bytes := [0] }),
         ("b.png", { mtimeMs := 3, bytes := [1] })] =
      [("a.png", { mtimeMs := 5, bytes := [0] }),
       ("b.png", { mtimeMs := 3, bytes := [1] })] := by
  refine ⟨⟨by decide, by decide, by decide⟩, ?_, ?_⟩
  · exact (size_sweep_correct 0
      [("a.png", { mtimeMs := 5, bytes := [0] }),
       ("b.png", { mtimeMs := 3, bytes := [1] })] (by decide)).2.1 (by decide)
  · exact (size_sweep_correct 1000
      [("a.png", { mtimeMs := 5, bytes := [0] }),
       ("b.png", { mtimeMs := 3, bytes := [1] })] (by decide)).1 (by decide)

end BomRadarProxy
